import Mathlib

/-!
A verification development for the smart-bookmark-app repository.

The application's data-synchronization hook (`useBookmarks` in
`hooks/useBookmarks.ts`, reproduced in `PROJECT_COMPLETION_SUMMARY.md`)
is shallowly embedded below.  Each hook operation becomes a pure
function from the hook's state together with the storage table and the
outcomes of the external provider calls (current identity, storage
failure or success) to the updated state, an event trace recording the
state writes, provider calls and toast notifications in program order,
and the operation's completion (`Except String Unit`: `.ok` when the
returned promise resolves, `.error` when it rejects).
-/

namespace SmartBookmarks

/-- The `Bookmark` row type from `types/bookmark.ts`.  `created_at` is a
timestamp assigned by the storage layer, modelled as an integer so that
the storage layer's `order by created_at desc` is a total order. -/
structure Bookmark where
  id : String
  user_id : String
  title : String
  url : String
  created_at : Int
  deriving DecidableEq

/-- The `CreateBookmarkDTO` type from `types/bookmark.ts`. -/
structure CreateBookmarkDTO where
  title : String
  url : String
  deriving DecidableEq

/-- The record sent to the storage layer by `addBookmark`:
`{ ...bookmark, user_id: user.id }` — title, url and `user_id`; `id` and
`created_at` are assigned by the storage layer. -/
structure InsertRow where
  title : String
  url : String
  user_id : String
  deriving DecidableEq

/-- The `useBookmarks` hook's React state: `bookmarks`, `loading`,
`error`. -/
structure HookState where
  bookmarks : List Bookmark
  loading : Bool
  error : Option String
  deriving DecidableEq

/-- A toast notification (`react-hot-toast`), the hook's user-facing
side channel. -/
inductive Toast where
  | success (msg : String)
  | error (msg : String)
  deriving DecidableEq

/-- A call into one of the external providers. -/
inductive ProviderCall where
  | authGetUser
  | storageSelect
  | storageInsert (row : InsertRow)
  | storageDelete (id : String)
  deriving DecidableEq

/-- One observable step of an operation, in program order. -/
inductive Event where
  | stateWrite (st : HookState)
  | providerCall (c : ProviderCall)
  | toastShown (t : Toast)
  deriving DecidableEq

/-- True exactly on `Event.stateWrite` events. -/
def Event.isStateWrite : Event → Bool
  | Event.stateWrite _ => true
  | _ => false

/-- True exactly on provider calls that contact the Storage Provider. -/
def Event.isStorageCall : Event → Bool
  | Event.providerCall ProviderCall.storageSelect => true
  | Event.providerCall (ProviderCall.storageInsert _) => true
  | Event.providerCall (ProviderCall.storageDelete _) => true
  | _ => false

/-- The hook's state together with the storage layer's table of
bookmark rows. -/
structure World where
  hook : HookState
  table : List Bookmark
  deriving DecidableEq

/-- The descending `created_at` order used by the storage layer's
`order("created_at", \x7b ascending: false \x7d)`. -/
def createdDesc (a b : Bookmark) : Prop := b.created_at ≤ a.created_at

instance : DecidableRel createdDesc :=
  fun a b => inferInstanceAs (Decidable (b.created_at ≤ a.created_at))

instance : IsTotal Bookmark createdDesc :=
  ⟨fun a b => Int.le_total b.created_at a.created_at⟩

instance : IsTrans Bookmark createdDesc :=
  ⟨fun _ _ _ hab hbc => le_trans hbc hab⟩

/-- Modelled from the spec and the repository's SQL: the Storage
Provider's answer to `select * from bookmarks order by created_at desc`
under the row-level-security policy `auth.uid() = user_id` — the rows
owned by the caller, sorted by `created_at` descending. -/
def Storage.list (table : List Bookmark) (uid : String) : List Bookmark :=
  List.insertionSort createdDesc (table.filter (fun b => b.user_id == uid))

/-- Modelled from the spec and the repository's SQL: the Storage
Provider's `delete from bookmarks where id = ?` under the
row-level-security policy `auth.uid() = user_id`.  Affecting zero rows
is not an error. -/
def Storage.deleteById (table : List Bookmark) (user : Option String)
    (bid : String) : List Bookmark :=
  table.filter (fun b => !(b.id == bid && user == some b.user_id))

/-- The hook's `fetchBookmarks` (the `refresh()` operation).
`user` is the Identity Provider's answer; `selectFail` is `some msg`
when the storage read fails with message `msg`. -/
def fetchBookmarks (user : Option String) (selectFail : Option String)
    (w : World) : World × List Event × Except String Unit :=
  let st1 : HookState := { w.hook with loading := true }
  let st2 : HookState := { st1 with error := none }
  match user with
  | none =>
    let st3 : HookState := { st2 with bookmarks := [] }
    let st4 : HookState := { st3 with loading := false }
    (⟨st4, w.table⟩,
      [Event.stateWrite st1, Event.stateWrite st2,
        Event.providerCall ProviderCall.authGetUser,
        Event.stateWrite st3, Event.stateWrite st4],
      Except.ok ())
  | some uid =>
    match selectFail with
    | none =>
      let st3 : HookState := { st2 with bookmarks := Storage.list w.table uid }
      let st4 : HookState := { st3 with loading := false }
      (⟨st4, w.table⟩,
        [Event.stateWrite st1, Event.stateWrite st2,
          Event.providerCall ProviderCall.authGetUser,
          Event.providerCall ProviderCall.storageSelect,
          Event.stateWrite st3, Event.stateWrite st4],
        Except.ok ())
    | some msg =>
      let st3 : HookState := { st2 with error := some msg }
      let st4 : HookState := { st3 with loading := false }
      (⟨st4, w.table⟩,
        [Event.stateWrite st1, Event.stateWrite st2,
          Event.providerCall ProviderCall.authGetUser,
          Event.providerCall ProviderCall.storageSelect,
          Event.stateWrite st3, Event.toastShown (Toast.error msg),
          Event.stateWrite st4],
        Except.ok ())

/-- The hook's `addBookmark`.  `insertFail` is `some msg` when the
storage insert fails; on success the storage layer assigns `newId` and
`now` to the new row.  Throwing `Error("Not authenticated")` and the
rethrow in the catch block surface as an `Except.error` completion. -/
def addBookmark (dto : CreateBookmarkDTO) (user : Option String)
    (insertFail : Option String) (newId : String) (now : Int)
    (w : World) : World × List Event × Except String Unit :=
  match user with
  | none =>
    (w,
      [Event.providerCall ProviderCall.authGetUser,
        Event.toastShown (Toast.error "Not authenticated")],
      Except.error "Not authenticated")
  | some uid =>
    let row : InsertRow := { title := dto.title, url := dto.url, user_id := uid }
    match insertFail with
    | some msg =>
      (w,
        [Event.providerCall ProviderCall.authGetUser,
          Event.providerCall (ProviderCall.storageInsert row),
          Event.toastShown (Toast.error msg)],
        Except.error msg)
    | none =>
      let b : Bookmark :=
        { id := newId, user_id := uid, title := dto.title, url := dto.url,
          created_at := now }
      (⟨w.hook, w.table ++ [b]⟩,
        [Event.providerCall ProviderCall.authGetUser,
          Event.providerCall (ProviderCall.storageInsert row),
          Event.toastShown (Toast.success "Bookmark added!")],
        Except.ok ())

/-- The hook's `deleteBookmark`: optimistic removal from `bookmarks`
first, then the storage delete.  On failure it shows an error toast and
awaits a full `fetchBookmarks()`; the catch block does not rethrow, so
the completion is `.ok` either way.  `user` is the ambient session
identity used by the storage layer's row-level security and by the
reconciling refetch. -/
def deleteBookmark (bid : String) (user : Option String)
    (deleteFail : Option String) (refetchFail : Option String)
    (w : World) : World × List Event × Except String Unit :=
  let st1 : HookState :=
    { w.hook with bookmarks := w.hook.bookmarks.filter (fun b => b.id != bid) }
  match deleteFail with
  | none =>
    (⟨st1, Storage.deleteById w.table user bid⟩,
      [Event.stateWrite st1,
        Event.providerCall (ProviderCall.storageDelete bid),
        Event.toastShown (Toast.success "Bookmark deleted!")],
      Except.ok ())
  | some msg =>
    let res := fetchBookmarks user refetchFail ⟨st1, w.table⟩
    (res.1,
      [Event.stateWrite st1,
        Event.providerCall (ProviderCall.storageDelete bid),
        Event.toastShown (Toast.error msg)] ++ res.2.1,
      Except.ok ())

/-- Modelled from the WHATWG URL standard (the platform primitive behind
`new URL(url)` in `utils/auth-helpers.ts`, which is not part of this
repository's code): a character that may begin a scheme — an ASCII
alpha. -/
def schemeStartChar (c : Char) : Bool := c.isAlpha

/-- Modelled from the WHATWG URL standard: a character that may continue
a scheme — ASCII alphanumeric, `+`, `-` or `.`. -/
def schemeChar (c : Char) : Bool :=
  c.isAlpha || c.isDigit || c == '+' || c == '-' || c == '.'

/-- Consumes scheme characters until the terminating `:`; fails when the
input ends or a non-scheme character appears before any colon. -/
def schemeRest (acc : List Char) : List Char → Option (List Char × List Char)
  | [] => none
  | c :: rest =>
    if c == ':' then some (acc, rest)
    else if schemeChar c then schemeRest (acc ++ [c]) rest
    else none

/-- Splits off the leading `scheme:` of a URL string, if present. -/
def splitScheme : List Char → Option (List Char × List Char)
  | [] => none
  | c :: rest => if schemeStartChar c then schemeRest [c] rest else none

/-- ASCII whitespace, for the leading/trailing stripping the WHATWG
parser (and JavaScript's `trim`) performs. -/
def asciiWhitespace (c : Char) : Bool :=
  c == ' ' || c == '\t' || c == '\n' || c == '\r'

/-- Strips leading and trailing ASCII whitespace from a character
list. -/
def trimChars (l : List Char) : List Char :=
  ((l.dropWhile asciiWhitespace).reverse.dropWhile asciiWhitespace).reverse

/-- The WHATWG special schemes whose authority must carry a nonempty
host (`file` allows an empty host and is treated separately). -/
def specialScheme (scheme : List Char) : Bool :=
  scheme == "http".toList || scheme == "https".toList ||
    scheme == "ws".toList || scheme == "wss".toList || scheme == "ftp".toList

/-- After the scheme's colon, skips any run of slashes (forward or
back), then checks that a nonempty host component follows. -/
def hostPresent (rest : List Char) : Bool :=
  match rest.dropWhile (fun c => c == '/' || c == '\\') with
  | [] => false
  | c :: _ => !(c == '?' || c == '#')

/-- Modelled from the WHATWG URL standard: whether `new URL(s)` (with no
base URL) parses.  The input must begin with a valid scheme followed by
`:`; a non-special scheme then always parses (opaque path), while a
special scheme other than `file` additionally requires a nonempty host.
Host-character validity and IDNA details are not modelled. -/
def urlCanParse (s : String) : Bool :=
  match splitScheme (trimChars s.toList) with
  | none => false
  | some (scheme, rest) =>
    let scheme := scheme.map Char.toLower
    if scheme == "file".toList then true
    else if specialScheme scheme then hostPresent rest
    else true

/-- `isValidUrl` from `utils/auth-helpers.ts`: `new URL(url)` in a
try/catch — true exactly when the constructor parses the input. -/
def isValidUrl (url : String) : Bool := urlCanParse url

/-- `handleSubmit` from `components/BookmarkForm.tsx`, as the predicate
"`onAdd` (the hook's `addBookmark`) is invoked for this submitted
(title, url) pair": blocked when either trimmed field is empty, then
blocked when `isValidUrl` rejects the url. -/
def handleSubmit (title url : String) : Bool :=
  if (trimChars title.toList).isEmpty || (trimChars url.toList).isEmpty then false
  else if !(isValidUrl url) then false
  else true

/-- A sample bookmark owned by user "alice". -/
def bkA : Bookmark :=
  { id := "b1", user_id := "alice", title := "GitHub",
    url := "https://github.com", created_at := 1 }

/-- A second sample bookmark owned by user "alice". -/
def bkB : Bookmark :=
  { id := "b2", user_id := "alice", title := "Docs",
    url := "https://docs.example", created_at := 2 }

/-- A sample world: both bookmarks cached locally and present in
storage. -/
def wEx : World := ⟨⟨[bkA, bkB], false, none⟩, [bkA, bkB]⟩

/-- C1: with no current identity, `addBookmark` fails with
"Not authenticated" and never contacts the Storage Provider (and
changes nothing); with an identity present, every record it sends for
insertion carries `user_id` equal to that identity. -/
theorem addBookmark_requires_identity_and_sets_owner
    (dto : CreateBookmarkDTO) (user : Option String)
    (insertFail : Option String) (newId : String) (now : Int) (w : World) :
    (user = none →
      (addBookmark dto user insertFail newId now w).2.2 =
          Except.error "Not authenticated" ∧
      ((addBookmark dto user insertFail newId now w).2.1.filter
          Event.isStorageCall) = [] ∧
      (addBookmark dto user insertFail newId now w).1 = w) ∧
    (∀ uid : String, user = some uid → ∀ row : InsertRow,
      Event.providerCall (ProviderCall.storageInsert row) ∈
          (addBookmark dto user insertFail newId now w).2.1 →
      row.user_id = uid) := by
  constructor
  · rintro rfl
    exact ⟨rfl, rfl, rfl⟩
  · rintro uid rfl row hrow
    cases insertFail with
    | none =>
      simp only [addBookmark, List.mem_cons, List.not_mem_nil, or_false,
        Event.providerCall.injEq, ProviderCall.storageInsert.injEq,
        reduceCtorEq, false_or] at hrow
      subst hrow
      rfl
    | some msg =>
      simp only [addBookmark, List.mem_cons, List.not_mem_nil, or_false,
        Event.providerCall.injEq, ProviderCall.storageInsert.injEq,
        reduceCtorEq, false_or] at hrow
      subst hrow
      rfl

/-- C1 witness: at concrete inputs, the logged-out call fails with
"Not authenticated" and the record built for user "alice" carries
`user_id = "alice"`. -/
theorem addBookmark_requires_identity_and_sets_owner_witness :
    (addBookmark ⟨"GitHub", "https://github.com"⟩ none none "b9" 9 wEx).2.2 =
      Except.error "Not authenticated" ∧
    (⟨"GitHub", "https://github.com", "alice"⟩ : InsertRow).user_id = "alice" := by
  have h := addBookmark_requires_identity_and_sets_owner
    ⟨"GitHub", "https://github.com"⟩ none none "b9" 9 wEx
  have h2 := addBookmark_requires_identity_and_sets_owner
    ⟨"GitHub", "https://github.com"⟩ (some "alice") none "b9" 9 wEx
  exact ⟨(h.1 rfl).1,
    h2.2 "alice" rfl ⟨"GitHub", "https://github.com", "alice"⟩ (by decide)⟩

/-- C2: when the storage read inside `refresh()` fails, `items` is left
exactly unchanged, `lastError` is set to the failure's message, the
failure is surfaced through an error toast, and the operation still
resolves (nothing is thrown onward). -/
theorem fetchBookmarks_failure_preserves_items (uid msg : String) (w : World) :
    (fetchBookmarks (some uid) (some msg) w).1.hook.bookmarks =
        w.hook.bookmarks ∧
    (fetchBookmarks (some uid) (some msg) w).1.hook.error = some msg ∧
    Event.toastShown (Toast.error msg) ∈
        (fetchBookmarks (some uid) (some msg) w).2.1 ∧
    (fetchBookmarks (some uid) (some msg) w).2.2 = Except.ok () := by
  refine ⟨rfl, rfl, ?_, rfl⟩
  simp [fetchBookmarks]

/-- C3: `deleteBookmark` writes the optimistically filtered `items`
before the storage delete request, and that filtering removes exactly
the entries whose id matches, keeping every other entry in its existing
order (the filtered list is a sublist of the original). -/
theorem deleteBookmark_optimistic_removal_first (bid : String)
    (user : Option String) (deleteFail refetchFail : Option String)
    (w : World) :
    (deleteBookmark bid user deleteFail refetchFail w).2.1.take 2 =
      [Event.stateWrite
          { w.hook with
              bookmarks := w.hook.bookmarks.filter (fun b => b.id != bid) },
        Event.providerCall (ProviderCall.storageDelete bid)] ∧
    (w.hook.bookmarks.filter (fun b => b.id != bid)).Sublist
        w.hook.bookmarks ∧
    (∀ b ∈ w.hook.bookmarks.filter (fun b => b.id != bid), b.id ≠ bid) ∧
    (∀ b ∈ w.hook.bookmarks, b.id ≠ bid →
      b ∈ w.hook.bookmarks.filter (fun b => b.id != bid)) := by
  refine ⟨?_, List.filter_sublist _, ?_, ?_⟩
  · cases deleteFail <;> rfl
  · intro b hb
    have h := (List.mem_filter.mp hb).2
    simpa using h
  · intro b hb hne
    exact List.mem_filter.mpr ⟨hb, by simpa using hne⟩

/-- C3 witness: deleting "b1" from the sample world writes the filtered
list before the storage call, and the unrelated bookmark survives the
filter. -/
theorem deleteBookmark_optimistic_removal_first_witness :
    (deleteBookmark "b1" (some "alice") none none wEx).2.1.take 2 =
      [Event.stateWrite
          { wEx.hook with
              bookmarks := wEx.hook.bookmarks.filter (fun b => b.id != "b1") },
        Event.providerCall (ProviderCall.storageDelete "b1")] ∧
    bkB ∈ wEx.hook.bookmarks.filter (fun b => b.id != "b1") := by
  obtain ⟨h1, _, _, h4⟩ :=
    deleteBookmark_optimistic_removal_first "b1" (some "alice") none none wEx
  exact ⟨h1, h4 bkB (by decide) (by decide)⟩

/-- C4: when the storage delete fails after the optimistic removal, the
operation emits a failure toast and runs a full refetch, so `items`
equals the storage layer's current state for the caller and again
contains the row that failed to delete. -/
theorem deleteBookmark_failure_reconciles (w : World) (uid bid msg : String)
    (b : Bookmark) (hb : b ∈ w.table) (_hid : b.id = bid)
    (hown : b.user_id = uid) :
    (deleteBookmark bid (some uid) (some msg) none w).1.hook.bookmarks =
      Storage.list w.table uid ∧
    b ∈ (deleteBookmark bid (some uid) (some msg) none w).1.hook.bookmarks ∧
    Event.toastShown (Toast.error msg) ∈
        (deleteBookmark bid (some uid) (some msg) none w).2.1 ∧
    Event.providerCall ProviderCall.storageSelect ∈
        (deleteBookmark bid (some uid) (some msg) none w).2.1 := by
  refine ⟨rfl, ?_, ?_, ?_⟩
  · show b ∈ Storage.list w.table uid
    unfold Storage.list
    rw [List.mem_insertionSort]
    exact List.mem_filter.mpr ⟨hb, by simp [hown]⟩
  · simp [deleteBookmark, fetchBookmarks]
  · simp [deleteBookmark, fetchBookmarks]

/-- C4 witness: with bookmark "b1" in storage, a failed delete followed
by a successful refetch restores it into `items`. -/
theorem deleteBookmark_failure_reconciles_witness :
    (deleteBookmark "b1" (some "alice") (some "boom") none wEx).1.hook.bookmarks =
      Storage.list wEx.table "alice" ∧
    bkA ∈ (deleteBookmark "b1" (some "alice") (some "boom") none wEx).1.hook.bookmarks := by
  obtain ⟨h1, h2, _, _⟩ := deleteBookmark_failure_reconciles wEx "alice" "b1"
    "boom" bkA (by decide) (by decide) (by decide)
  exact ⟨h1, h2⟩

/-- C5 counterexample: inside `refresh()`, a failing storage read is
surfaced through the error toast, yet the operation completes
successfully (`.ok`), not as a failure completion — the catch block
of `fetchBookmarks` does not rethrow. -/
theorem refresh_failure_completes_ok_cx :
    Event.toastShown (Toast.error "boom") ∈
      (fetchBookmarks (some "alice") (some "boom") wEx).2.1 ∧
    (fetchBookmarks (some "alice") (some "boom") wEx).2.2 = Except.ok () :=
  ⟨by decide, rfl⟩

/-- C5 (amended): every provider failure inside the three operations is
caught at the call and surfaced through an error toast (and recorded in
`lastError` for `refresh`), never silently swallowed; `addBookmark`
additionally re-surfaces the failure to its caller as a failure
completion, while `refresh` and `deleteBookmark` complete normally
after surfacing it. -/
theorem provider_failures_surfaced_via_toasts (w : World)
    (uid msg bid newId : String) (dto : CreateBookmarkDTO) (now : Int)
    (refetchFail : Option String) :
    (Event.toastShown (Toast.error msg) ∈
        (fetchBookmarks (some uid) (some msg) w).2.1 ∧
      (fetchBookmarks (some uid) (some msg) w).1.hook.error = some msg ∧
      (fetchBookmarks (some uid) (some msg) w).2.2 = Except.ok ()) ∧
    (Event.toastShown (Toast.error msg) ∈
        (addBookmark dto (some uid) (some msg) newId now w).2.1 ∧
      (addBookmark dto (some uid) (some msg) newId now w).2.2 =
        Except.error msg) ∧
    (Event.toastShown (Toast.error "Not authenticated") ∈
        (addBookmark dto none (some msg) newId now w).2.1 ∧
      (addBookmark dto none (some msg) newId now w).2.2 =
        Except.error "Not authenticated") ∧
    (Event.toastShown (Toast.error msg) ∈
        (deleteBookmark bid (some uid) (some msg) refetchFail w).2.1 ∧
      (deleteBookmark bid (some uid) (some msg) refetchFail w).2.2 =
        Except.ok ()) := by
  refine ⟨⟨?_, rfl, rfl⟩, ⟨?_, rfl⟩, ⟨?_, rfl⟩, ⟨?_, rfl⟩⟩ <;>
    simp [fetchBookmarks, addBookmark, deleteBookmark]

/-- C6: deleting the same id twice: the first call removes every cached
entry with that id and every storage row with that id owned by the
caller; both calls complete successfully (zero rows affected is not an
error), and the second call leaves `items` unchanged. -/
theorem deleteBookmark_idempotent (w : World) (uid bid : String) :
    (∀ b ∈ (deleteBookmark bid (some uid) none none w).1.hook.bookmarks,
      b.id ≠ bid) ∧
    (∀ b ∈ (deleteBookmark bid (some uid) none none w).1.table,
      ¬(b.id = bid ∧ b.user_id = uid)) ∧
    (deleteBookmark bid (some uid) none none w).2.2 = Except.ok () ∧
    (deleteBookmark bid (some uid) none none
        ((deleteBookmark bid (some uid) none none w).1)).2.2 =
      Except.ok () ∧
    (deleteBookmark bid (some uid) none none
        ((deleteBookmark bid (some uid) none none w).1)).1.hook.bookmarks =
      (deleteBookmark bid (some uid) none none w).1.hook.bookmarks := by
  refine ⟨?_, ?_, rfl, rfl, ?_⟩
  · intro b hb
    have h := (List.mem_filter.mp hb).2
    simpa using h
  · rintro b hb ⟨h1, h2⟩
    have h := (List.mem_filter.mp hb).2
    simp [h1, h2] at h
  · exact List.filter_eq_self.mpr fun a ha => (List.mem_filter.mp ha).2

/-- C6 witness: in the sample world, after deleting "b1" the surviving
bookmark's id differs from "b1", both calls resolve, and the second
call leaves `items` unchanged. -/
theorem deleteBookmark_idempotent_witness :
    bkB.id ≠ "b1" ∧
    (deleteBookmark "b1" (some "alice") none none wEx).2.2 = Except.ok () ∧
    (deleteBookmark "b1" (some "alice") none none
        ((deleteBookmark "b1" (some "alice") none none wEx).1)).2.2 =
      Except.ok () ∧
    (deleteBookmark "b1" (some "alice") none none
        ((deleteBookmark "b1" (some "alice") none none wEx).1)).1.hook.bookmarks =
      (deleteBookmark "b1" (some "alice") none none wEx).1.hook.bookmarks := by
  obtain ⟨h1, _, h3, h4, h5⟩ := deleteBookmark_idempotent wEx "alice" "b1"
  exact ⟨h1 bkB (by decide), h3, h4, h5⟩

/-- C7: after a successful `refresh()` with an identity present, `items`
is pairwise sorted by `created_at` descending (every adjacent pair
satisfies the descending order). -/
theorem refresh_items_sorted_desc (w : World) (uid : String) :
    ((fetchBookmarks (some uid) none w).1.hook.bookmarks).Pairwise
      createdDesc :=
  List.sorted_insertionSort createdDesc _

/-- C8: a `refresh()` with no identity present sets `items` to the empty
sequence, records no error, resolves successfully, and never contacts
the Storage Provider. -/
theorem refresh_logged_out_empty_success (w : World)
    (selectFail : Option String) :
    (fetchBookmarks none selectFail w).1.hook.bookmarks = [] ∧
    (fetchBookmarks none selectFail w).1.hook.error = none ∧
    (fetchBookmarks none selectFail w).2.2 = Except.ok () ∧
    ((fetchBookmarks none selectFail w).2.1.filter Event.isStorageCall) =
      [] :=
  ⟨rfl, rfl, rfl, rfl⟩

/-- C9: for every input and outcome, `addBookmark` leaves the hook's
state — in particular `items` — unchanged, and performs no state write
at all (no optimistic local insert). -/
theorem addBookmark_never_mutates_items (dto : CreateBookmarkDTO)
    (user : Option String) (insertFail : Option String) (newId : String)
    (now : Int) (w : World) :
    (addBookmark dto user insertFail newId now w).1.hook = w.hook ∧
    ((addBookmark dto user insertFail newId now w).2.1.filter
        Event.isStateWrite) = [] := by
  cases user <;> cases insertFail <;> exact ⟨rfl, rfl⟩

/-- C10: `isValidUrl` answers exactly the WHATWG URL constructor's
parse-success predicate: it accepts absolute URLs of any scheme
("javascript:alert(1)", "ftp://host"), rejects scheme-less strings
("example.com"), and the form's submit handler invokes `addBookmark`
exactly for the constructor-parseable URLs among inputs whose trimmed
fields are nonempty. -/
theorem isValidUrl_matches_whatwg (t u : String)
    (ht : trimChars t.toList ≠ []) (hu : trimChars u.toList ≠ []) :
    isValidUrl "javascript:alert(1)" = true ∧
    isValidUrl "ftp://host" = true ∧
    isValidUrl "example.com" = false ∧
    (∀ s : String, isValidUrl s = urlCanParse s) ∧
    (handleSubmit t u = true ↔ urlCanParse u = true) := by
  refine ⟨by decide, by decide, by decide, fun s => rfl, ?_⟩
  have ht' : trimChars t.data ≠ [] := ht
  have hu' : trimChars u.data ≠ [] := hu
  cases hres : urlCanParse u <;>
    simp [handleSubmit, isValidUrl, hres, List.isEmpty_eq_true, ht', hu']

/-- C10 witness: the form submits "https://github.com" (a parseable URL)
to `addBookmark`, and "example.com" is rejected by the validator. -/
theorem isValidUrl_matches_whatwg_witness :
    handleSubmit "GitHub" "https://github.com" = true ∧
    isValidUrl "example.com" = false := by
  have h := isValidUrl_matches_whatwg "GitHub" "https://github.com"
    (by decide) (by decide)
  exact ⟨h.2.2.2.2.mpr (by decide), h.2.2.1⟩

end SmartBookmarks
